import Mathlib

/-!
# Verification of the branch/remote validation and settings logic of
# `roles/common/templates/uug_ansible_wrapper.py`

This file gives a shallow embedding of the parts of the GUI wrapper script
that the specification describes: the `validate_branch_settings` decision
table, the `branch_exists` remote check, the user-configuration
read/write/merge logic (`parse_user_config` / `write_user_config`), and the
GUI events that mutate the role lists (`on_course_toggled`, the Settings
dialog, the ignorable-warning dialog).

Conventions of the embedding:
* Python strings are `String`, Python booleans are `Bool`.
* The external `git ls-remote` call is an oracle parameter.  For
  `validate_branch_settings` the oracle has type `String → String → Bool`
  (remote URL → branch name → existence); the result record also carries the
  list of `(remote, branch)` pairs the function passed to `branch_exists`,
  in source order, so that statements about which existence checks are
  performed can be made.
* `list(set(xs))` is modelled by `List.dedup`.  Python's set iteration order
  is unspecified; the model fixes one duplicate-free order, and every
  theorem below about these lists is order-insensitive (membership, `Nodup`).
* GTK dialog display is a side effect with no influence on the returned
  value and is dropped; the returned record keeps the header/message/
  recommendation data the dialog would show.
-/

namespace UugWrapper

/-- `DEFAULT_GIT_REMOTE` constant of the script (line 36). -/
def DEFAULT_GIT_REMOTE : String := "https://github.com/jmunixusers/cs-vm-build"

/-- One character of the class `[a-z]`. -/
def isLowerLetter (c : Char) : Bool := decide ('a' ≤ c) && decide (c ≤ 'z')

/-- The `looks_minty` test of line 798:
`re.compile(r"[a-z]+a").fullmatch(chosen_branch)` is truthy.
The regex `[a-z]+a`, full-matched, accepts exactly the strings consisting of
lowercase ASCII letters, of length at least 2, whose last character is `a`
(the `[a-z]+` part consumes everything before the final mandatory `a`). -/
def looks_minty (s : String) : Bool :=
  decide (2 ≤ s.data.length) && s.data.all isLowerLetter
    && (s.data.getLast? == some 'a')

/-- The data shown by one warning dialog of `validate_branch_settings`:
the dialog header, the full prompt text, the recommended release/URL pair
embedded in the prompt, and — for the `display_ignorable_warning` path —
the settings key whose flag suppresses the warning. -/
structure Warning where
  header : String
  prompt : String
  recRelease : String
  recUrl : String
  suppressKey : Option String
deriving Repr, DecidableEq

/-- Warning of lines 816-828: unstable development branch selected while a
release for the running distro exists.  Shown via
`display_ignorable_warning` with settings key `"ignore_main"`. -/
def unstable_release_warning (system_version git_url : String) : Warning :=
  { header := "Unstable release selected"
  , prompt := "You have selected an unstable development branch (main) of the configuration tool. It is recommended to use the release branch of this tool that corresponds to your Linux Mint version. Consider changing your settings to match the following:\nRelease: " ++ system_version ++ "\nURL: " ++ git_url
  , recRelease := system_version
  , recUrl := git_url
  , suppressKey := some "ignore_main" }

/-- Warning of lines 830-840 (`branch_mismatch and looks_minty and
system_exists`).  The header spelling "Incompatiable" is the source's. -/
def incompat_mint_warning (system_version git_url : String) : Warning :=
  { header := "Incompatiable Linux Mint release"
  , prompt := "You have selected a version of the configuration tool meant for a different Linux Mint release. It is recommended to switch to the release branch that corresponds to your Linux Mint version. Consider changing your settings to match the following:\nRelease: " ++ system_version ++ "\nURL: " ++ git_url
  , recRelease := system_version
  , recUrl := git_url
  , suppressKey := none }

/-- Warning of lines 841-850 (`system_exists and not chosen_exists`);
recommends the system release on the default remote. -/
def chosen_unavailable_warning (system_version : String) : Warning :=
  { header := "Chosen release unavailable"
  , prompt := "You have selected a release of the configuration tool that does not exist on the git URL you have specified. It is recommended that you switch to the release branch that corresponds to your Linux Mint release on the UUG git repository. Consider changing your settings to match the following:\nRelease: " ++ system_version ++ "\nURL: " ++ DEFAULT_GIT_REMOTE
  , recRelease := system_version
  , recUrl := DEFAULT_GIT_REMOTE
  , suppressKey := none }

/-- Warning of lines 851-860 (`looks_minty and not (branch_mismatch or
chosen_exists)`); recommends the main branch. -/
def chosen_not_available_warning (git_url : String) : Warning :=
  { header := "Chosen release not available"
  , prompt := "You have selected a release of the configuration tool that does not exist on the git URL you have specified; however, your current version of Linux Mint is not yet supported. It is recommended that you switch to the main (testing) branch. Consider changing your settings to match the following:\nRelease: main\nURL: " ++ git_url
  , recRelease := "main"
  , recUrl := git_url
  , suppressKey := none }

/-- Warning of lines 861-872 (`branch_mismatch and looks_minty and not
system_exists`). -/
def incompat_unsupported_warning (git_url : String) : Warning :=
  { header := "Incompatible Linux Mint release"
  , prompt := "You have selected a version of the configuration tool meant for a different Linux Mint release; however, we are unable to completely support your Linux Mint release at this time. It is recommended to switch to the main (testing) branch. Consider changing your settings to match the following:\nRelease: main\nURL: " ++ git_url
  , recRelease := "main"
  , recUrl := git_url
  , suppressKey := none }

/-- Warning of lines 873-882 (`branch_mismatch and not (system_exists or
chosen_exists)`). -/
def neither_exists_warning (git_url : String) : Warning :=
  { header := "Chosen release unavailable"
  , prompt := "You have selected a version of the configuration tool that does not support your version of Linux Mint; however, there is not a release that supports your version of Linux Mint available yet. It is recommended to switch to the main (testing) branch. Consider changing your settings to match the following:\nRelease: main\nURL: " ++ git_url
  , recRelease := "main"
  , recUrl := git_url
  , suppressKey := none }

/-- The inputs `validate_branch_settings` reads (lines 793-796):
the detected system release name, and the `git_branch` / `git_url` /
`ignore_main` entries of `USER_CONFIG`. -/
structure VBInput where
  system_version : String
  git_branch : String
  git_url : String
  ignore_main : Bool
deriving Repr, DecidableEq

/-- The observable outcome of `validate_branch_settings`: the warning
dialog shown (if any), the returned boolean (`proceed`), and the
`(remote, branch)` arguments of the `branch_exists` calls it made,
in source order. -/
structure VBResult where
  warning : Option Warning
  proceed : Bool
  checks : List (String × String)
deriving Repr, DecidableEq

/-- Shallow embedding of `validate_branch_settings` (lines 787-893).
`bex remote branch` is the `branch_exists` oracle; the real function reads
the remote from `USER_CONFIG["git_url"]`, so both calls use `git_url`.
Note the two `branch_exists` calls (lines 803-804) happen before the
default-remote test (line 808). -/
def validate_branch_settings (bex : String → String → Bool) (inp : VBInput) :
    VBResult :=
  let system_version := inp.system_version
  let chosen_branch := inp.git_branch
  let chosen_remote := inp.git_url
  let main_okay := inp.ignore_main
  let branch_mismatch := system_version != chosen_branch
  let minty := looks_minty chosen_branch
  let system_exists := bex chosen_remote system_version
  let chosen_exists := bex chosen_remote chosen_branch
  let checks := [(chosen_remote, system_version), (chosen_remote, chosen_branch)]
  if chosen_remote != DEFAULT_GIT_REMOTE then
    { warning := none, proceed := true, checks := checks }
  else if chosen_branch == "main" && system_exists && !main_okay then
    { warning := some (unstable_release_warning system_version chosen_remote)
    , proceed := false, checks := checks }
  else
    let warning : Option Warning :=
      if branch_mismatch && minty && system_exists then
        some (incompat_mint_warning system_version chosen_remote)
      else if system_exists && !chosen_exists then
        some (chosen_unavailable_warning system_version)
      else if minty && !(branch_mismatch || chosen_exists) then
        some (chosen_not_available_warning chosen_remote)
      else if branch_mismatch && minty && !system_exists then
        some (incompat_unsupported_warning chosen_remote)
      else if branch_mismatch && !(system_exists || chosen_exists) then
        some (neither_exists_warning chosen_remote)
      else
        none
    { warning := warning, proceed := warning.isNone, checks := checks }

/-- The argument vector `branch_exists` passes to `subprocess.run`
(lines 906-914). -/
def ls_remote_cmd (remote_url branch_name : String) : List String :=
  ["/usr/bin/env", "git", "ls-remote", "--heads", "--exit-code",
   remote_url, branch_name]

/-- Shallow embedding of `branch_exists` (lines 896-918).  `runGit args`
is the exit code of `subprocess.run(args, check=False)`; with
`check=False` a non-zero exit does not raise, and the function returns
`returncode == 0`. -/
def branch_exists (runGit : List String → Int) (git_url branch_name : String) :
    Bool :=
  runGit (ls_remote_cmd git_url branch_name) == 0

/-- The `USER_CONFIG` dictionary (lines 53-62) plus the `ignore_main` key
that `display_ignorable_warning` and the Settings dialog may add.
`git_branch` starts as Python `None`, modelled by `Option String`. -/
structure Settings where
  git_branch : Option String
  git_url : String
  roles_all_time : List String
  roles_this_run : List String
  allow_experimental : Bool
  ignore_main : Bool
deriving Repr, DecidableEq

/-- The literal initial value of `USER_CONFIG` (lines 53-62); `ignore_main`
is absent there, and `USER_CONFIG.get("ignore_main", False)` reads it as
`False`. -/
def initial_user_config : Settings :=
  { git_branch := none
  , git_url := DEFAULT_GIT_REMOTE
  , roles_all_time := ["common"]
  , roles_this_run := ["common"]
  , allow_experimental := false
  , ignore_main := false }

/-- The role-list normalisation done by `parse_user_config` after the file
has (possibly) been loaded (lines 721-724):
`roles_all_time = list(set(roles_all_time))`,
`roles_this_run += roles_all_time`,
`roles_this_run = list(set(roles_this_run))`. -/
def parse_merge (c : Settings) : Settings :=
  let all_time := c.roles_all_time.dedup
  let this_run := (c.roles_this_run ++ all_time).dedup
  { c with roles_all_time := all_time, roles_this_run := this_run }

/-- Shallow embedding of `parse_user_config` (lines 709-726).  `file` is
the parsed contents of `settings.yml` when the file exists and loads
(written files carry every key, so `config.update` replaces the whole
record), and `none` when it is missing or invalid, in which case
`USER_CONFIG` keeps its current value `c`.  Either way the role lists are
then normalised by lines 721-724. -/
def parse_user_config (c : Settings) (file : Option Settings) : Settings :=
  parse_merge (match file with | some f => f | none => c)

/-- Shallow embedding of the `USER_CONFIG` mutation in `write_user_config`
(lines 1017-1035): `roles_this_run = list(set(roles_this_run))`,
`roles_all_time += roles_this_run`,
`roles_all_time = list(set(roles_all_time))`.  The resulting record is
also what is serialised to `settings.yml`. -/
def write_user_config (c : Settings) : Settings :=
  let this_run := c.roles_this_run.dedup
  let all_time := (c.roles_all_time ++ this_run).dedup
  { c with roles_this_run := this_run, roles_all_time := all_time }

/-- Writing the configuration and reading it back in a fresh session:
the file written by `write_user_config` is the mutated `USER_CONFIG`, and
`parse_user_config` in the next session replaces the in-memory defaults
with it before normalising. -/
def round_trip (c : Settings) : Settings :=
  parse_user_config initial_user_config (some (write_user_config c))

/-- The Ansible tags of the `COURSES` map (lines 43-51); these are the tags
wired to `on_course_toggled` by `add_course`.  `EXPERIMENTAL_COURSES` is
empty (line 52), so no further tags exist.  The always-on "Base
configuration" checkbox is insensitive and connected to no handler. -/
def course_tags : List String :=
  ["cs101", "cs149", "cs159", "cs261", "cs361", "cs430", "cs432"]

/-- Lines 108-109 of `main`: re-add `"common"` to `roles_this_run` when the
loaded configuration lost it. -/
def ensure_common (c : Settings) : Settings :=
  if "common" ∈ c.roles_this_run then c
  else { c with roles_this_run := c.roles_this_run ++ ["common"] }

/-- Lines 111-112 of `main`: `if not USER_CONFIG["git_branch"]`, set the
branch to `"main"`.  Python `None` and `""` are the falsy strings. -/
def fix_empty_branch (c : Settings) : Settings :=
  if (match c.git_branch with | none => true | some s => s == "") then
    { c with git_branch := some "main" }
  else c

/-- `main`'s settings initialisation, lines 97-112: pick the branch from
the detected distro release (falling back to `"main"` when that branch is
missing at the default remote), load the stored configuration, re-add
`"common"`, and default an empty branch to `"main"`.  `bex` is the
`branch_exists` oracle, `distro` the detected release name, `file` the
stored configuration (if any). -/
def main_startup (bex : String → String → Bool) (distro : String)
    (file : Option Settings) : Settings :=
  let c0 := { initial_user_config with
    git_branch := if bex initial_user_config.git_url distro
                  then some distro else some "main" }
  let c1 := parse_user_config c0 file
  let c2 := ensure_common c1
  fix_empty_branch c2

/-- The session events that mutate `USER_CONFIG` after startup. -/
inductive Event where
  /-- `on_course_toggled` (lines 224-237): append the tag when the box was
  checked, remove its first occurrence when unchecked (`list.remove`). -/
  | toggle (tag : String) (active : Bool)
  /-- The Settings dialog's OK response (lines 542-548): store the four
  edited settings, then `write_user_config`. -/
  | settingsOk (branch url : String) (experimental ignoreMain : Bool)
  /-- `display_ignorable_warning` accepted with the checkbox set
  (lines 961-963): set the `ignore_main` key, then `write_user_config`. -/
  | ignoreAccepted
  /-- `on_run_clicked` reaching `write_user_config()` (line 423). -/
  | runClicked
deriving Repr, DecidableEq

/-- The `USER_CONFIG` mutation each event performs. -/
def apply_event (c : Settings) : Event → Settings
  | .toggle tag active =>
      if active then { c with roles_this_run := c.roles_this_run ++ [tag] }
      else { c with roles_this_run := c.roles_this_run.erase tag }
  | .settingsOk branch url experimental ignoreMain =>
      write_user_config { c with
        git_branch := some branch
        git_url := url
        allow_experimental := experimental
        ignore_main := ignoreMain }
  | .ignoreAccepted => write_user_config { c with ignore_main := true }
  | .runClicked => write_user_config c

/-- Toggle events only arise from checkboxes `add_course` connected, whose
tags are in `course_tags`; the other events carry no precondition. -/
def event_ok : Event → Prop
  | .toggle tag _ => tag ∈ course_tags
  | _ => True

/-- The `USER_CONFIG` states a session can be in after `main`'s settings
initialisation, closed under the GUI events. -/
inductive Reachable : Settings → Prop where
  | init (bex : String → String → Bool) (distro : String)
      (file : Option Settings) : Reachable (main_startup bex distro file)
  | step (c : Settings) (e : Event) (hr : Reachable c) (he : event_ok e) :
      Reachable (apply_event c e)

end UugWrapper

namespace UugWrapper

example : looks_minty "vanessa" = true := by decide
example : looks_minty "vera" = true := by decide
example : looks_minty "zara" = true := by decide
example : looks_minty "main" = false := by decide
example : looks_minty "a" = false := by decide

example :
    (validate_branch_settings (fun _ _ => false)
      ⟨"zara", "zara", DEFAULT_GIT_REMOTE, false⟩).proceed = false := by decide

/-- A string accepted by the `[a-z]+a` heuristic is never `"main"`. -/
theorem looks_minty_ne_main {s : String} (h : looks_minty s = true) :
    s ≠ "main" := by
  rintro rfl
  exact absurd h (by decide)

/-- C1: the claim asserts that for a non-default remote,
`validate_branch_settings` skips all branch-existence checks.  It does
not: lines 803-804 call `branch_exists` for both the system release and
the chosen branch before the remote is compared at line 808, so both
checks run (against the non-default remote) even though their results are
then discarded.  Concretely, with remote `"https://example.com/fork"` the
function still performs two checks. -/
theorem C1_counterexample :
    (validate_branch_settings (fun _ _ => false)
        ⟨"vera", "vanessa", "https://example.com/fork", false⟩).checks =
      [("https://example.com/fork", "vera"),
       ("https://example.com/fork", "vanessa")] ∧
    (validate_branch_settings (fun _ _ => false)
        ⟨"vera", "vanessa", "https://example.com/fork", false⟩).checks ≠ [] := by
  decide

/-- C1 (amended): for every input whose chosen remote differs from the
default remote, `validate_branch_settings` returns `proceed = true` with
no warning, and its result is independent of the branch-existence oracle;
however it still performs both branch-existence checks (against the
chosen remote) before testing the remote. -/
theorem C1_amended_nondefault_remote (bex bex2 : String → String → Bool)
    (inp : VBInput) (h : inp.git_url ≠ DEFAULT_GIT_REMOTE) :
    (validate_branch_settings bex inp).warning = none ∧
    (validate_branch_settings bex inp).proceed = true ∧
    (validate_branch_settings bex inp).checks =
      [(inp.git_url, inp.system_version), (inp.git_url, inp.git_branch)] ∧
    validate_branch_settings bex inp = validate_branch_settings bex2 inp := by
  have hb : (inp.git_url != DEFAULT_GIT_REMOTE) = true := by
    simpa [bne_iff_ne] using h
  simp [validate_branch_settings, hb]

/-- C1 witness: the amended statement instantiated at a concrete
non-default remote. -/
theorem C1_witness :
    ("https://example.com/fork" : String) ≠ DEFAULT_GIT_REMOTE ∧
    ((validate_branch_settings (fun _ _ => true)
        ⟨"vera", "vanessa", "https://example.com/fork", false⟩).warning = none ∧
     (validate_branch_settings (fun _ _ => true)
        ⟨"vera", "vanessa", "https://example.com/fork", false⟩).proceed = true ∧
     (validate_branch_settings (fun _ _ => true)
        ⟨"vera", "vanessa", "https://example.com/fork", false⟩).checks =
        [("https://example.com/fork", "vera"),
         ("https://example.com/fork", "vanessa")] ∧
     validate_branch_settings (fun _ _ => true)
        ⟨"vera", "vanessa", "https://example.com/fork", false⟩ =
       validate_branch_settings (fun _ _ => false)
        ⟨"vera", "vanessa", "https://example.com/fork", false⟩) :=
  ⟨by decide,
   C1_amended_nondefault_remote (fun _ _ => true) (fun _ _ => false)
     ⟨"vera", "vanessa", "https://example.com/fork", false⟩ (by decide)⟩

/-- C2: at the default remote, with chosen branch `"main"`, the system
release existing on the remote, and `ignore_main` unset, the resolver
produces the suppressible "Unstable release selected" warning (its
suppression key is `"ignore_main"`) and returns `proceed = false`
(lines 816-828). -/
theorem C2_unstable_warning (bex : String → String → Bool) (inp : VBInput)
    (hu : inp.git_url = DEFAULT_GIT_REMOTE) (hb : inp.git_branch = "main")
    (hex : bex inp.git_url inp.system_version = true)
    (hm : inp.ignore_main = false) :
    (validate_branch_settings bex inp).warning =
      some (unstable_release_warning inp.system_version inp.git_url) ∧
    (validate_branch_settings bex inp).proceed = false ∧
    (unstable_release_warning inp.system_version inp.git_url).suppressKey =
      some "ignore_main" := by
  obtain ⟨sys, br, url, im⟩ := inp
  dsimp at hu hb hex hm ⊢
  subst hu hb hm
  simp [validate_branch_settings, hex, unstable_release_warning]

/-- C2 witness: concrete instance with system release `"vera"` existing at
the default remote. -/
theorem C2_witness :
    ((fun _ _ => true : String → String → Bool)
        DEFAULT_GIT_REMOTE "vera" = true) ∧
    ((validate_branch_settings (fun _ _ => true)
        ⟨"vera", "main", DEFAULT_GIT_REMOTE, false⟩).warning =
      some (unstable_release_warning "vera" DEFAULT_GIT_REMOTE) ∧
     (validate_branch_settings (fun _ _ => true)
        ⟨"vera", "main", DEFAULT_GIT_REMOTE, false⟩).proceed = false ∧
     (unstable_release_warning "vera" DEFAULT_GIT_REMOTE).suppressKey =
      some "ignore_main") :=
  ⟨rfl,
   C2_unstable_warning (fun _ _ => true)
     ⟨"vera", "main", DEFAULT_GIT_REMOTE, false⟩ rfl rfl rfl rfl⟩

/-- C3: for the same inputs that produce the unstable warning with
`ignore_main = false`, setting `ignore_main = true` makes the first
special-case branch fall through, and no warning with the "Unstable
release selected" header can be produced by the remaining rules
(lines 816-828). -/
theorem C3_ignore_main_suppresses (bex : String → String → Bool)
    (inp : VBInput) (hu : inp.git_url = DEFAULT_GIT_REMOTE)
    (hb : inp.git_branch = "main")
    (hex : bex inp.git_url inp.system_version = true) :
    (validate_branch_settings bex { inp with ignore_main := false }).warning =
      some (unstable_release_warning inp.system_version inp.git_url) ∧
    (∀ w, (validate_branch_settings bex
        { inp with ignore_main := true }).warning = some w →
      w.header ≠ "Unstable release selected") := by
  obtain ⟨sys, br, url, im⟩ := inp
  dsimp at hu hb hex ⊢
  subst hu hb
  have hmain : looks_minty "main" = false := by decide
  constructor
  · simp [validate_branch_settings, hex]
  · intro w hw
    cases hc : bex DEFAULT_GIT_REMOTE "main" <;>
      simp [validate_branch_settings, hex, hc, hmain] at hw
    subst hw
    simp [chosen_unavailable_warning]

/-- C3 witness: concrete instance with system release `"vera"` existing at
the default remote. -/
theorem C3_witness :
    ((fun _ _ => true : String → String → Bool)
        DEFAULT_GIT_REMOTE "vera" = true) ∧
    ((validate_branch_settings (fun _ _ => true)
        ⟨"vera", "main", DEFAULT_GIT_REMOTE, false⟩).warning =
      some (unstable_release_warning "vera" DEFAULT_GIT_REMOTE) ∧
     (∀ w, (validate_branch_settings (fun _ _ => true)
        ⟨"vera", "main", DEFAULT_GIT_REMOTE, true⟩).warning = some w →
      w.header ≠ "Unstable release selected")) :=
  ⟨rfl,
   C3_ignore_main_suppresses (fun _ _ => true)
     ⟨"vera", "main", DEFAULT_GIT_REMOTE, false⟩ rfl rfl rfl⟩

/-- C4: at the default remote, when the chosen branch differs from the
system release, looks like a Mint codename (`[a-z]+a`), and the system
release exists on the remote, the first decision-table rule fires
(lines 830-840): the "incompatible release" warning is returned and its
recommendation is the system release name. -/
theorem C4_incompatible_release (bex : String → String → Bool)
    (inp : VBInput) (hu : inp.git_url = DEFAULT_GIT_REMOTE)
    (hne : inp.system_version ≠ inp.git_branch)
    (hminty : looks_minty inp.git_branch = true)
    (hex : bex inp.git_url inp.system_version = true) :
    (validate_branch_settings bex inp).warning =
      some (incompat_mint_warning inp.system_version inp.git_url) ∧
    (incompat_mint_warning inp.system_version inp.git_url).recRelease =
      inp.system_version := by
  obtain ⟨sys, br, url, im⟩ := inp
  dsimp at hu hne hminty hex ⊢
  subst hu
  have hbr : ¬(br == "main") := by
    simpa [beq_iff_eq] using looks_minty_ne_main hminty
  have hmm : (sys != br) = true := by simpa [bne_iff_ne] using hne
  simp [validate_branch_settings, hex, hminty, hbr, hmm,
        incompat_mint_warning]

/-- C4 witness: the spec's own example — system release `"vera"`, chosen
branch `"vanessa"`, default remote, both branches existing — yields the
incompatible-release warning recommending `"vera"`. -/
theorem C4_witness :
    ("vera" : String) ≠ "vanessa" ∧ looks_minty "vanessa" = true ∧
    ((validate_branch_settings (fun _ _ => true)
        ⟨"vera", "vanessa", DEFAULT_GIT_REMOTE, false⟩).warning =
      some (incompat_mint_warning "vera" DEFAULT_GIT_REMOTE) ∧
     (incompat_mint_warning "vera" DEFAULT_GIT_REMOTE).recRelease = "vera") :=
  ⟨by decide, by decide,
   C4_incompatible_release (fun _ _ => true)
     ⟨"vera", "vanessa", DEFAULT_GIT_REMOTE, false⟩ rfl (by decide)
     (by decide) rfl⟩

/-- C5: the claim (and the spec's example) asserts that system release
`"zara"`, chosen branch `"zara"`, default remote, with neither branch
existing, matches no warning rule and yields `proceed = true`.  It does
not: the third decision-table rule (lines 851-860),
`looks_minty and not (branch_mismatch or chosen_exists)`, fires because
`"zara"` matches `[a-z]+a`, the mismatch is false, and the chosen branch
does not exist.  The resolver shows the "Chosen release not available"
warning and returns `False`. -/
theorem C5_counterexample :
    (validate_branch_settings (fun _ _ => false)
        ⟨"zara", "zara", DEFAULT_GIT_REMOTE, false⟩).warning.isSome = true ∧
    (validate_branch_settings (fun _ _ => false)
        ⟨"zara", "zara", DEFAULT_GIT_REMOTE, false⟩).proceed = false := by
  decide

/-- C5 (amended): for system release `"zara"`, chosen branch `"zara"`, at
the default remote with neither branch existing, the resolver matches the
`looks_minty and not (branch_mismatch or chosen_exists)` rule and returns
the "Chosen release not available" warning, which recommends the `main`
branch, with `proceed = false`. -/
theorem C5_amended_zara_rule :
    validate_branch_settings (fun _ _ => false)
      ⟨"zara", "zara", DEFAULT_GIT_REMOTE, false⟩ =
    { warning := some (chosen_not_available_warning DEFAULT_GIT_REMOTE)
    , proceed := false
    , checks := [(DEFAULT_GIT_REMOTE, "zara"), (DEFAULT_GIT_REMOTE, "zara")] } ∧
    (chosen_not_available_warning DEFAULT_GIT_REMOTE).recRelease = "main" := by
  constructor <;> rfl

/-- Membership in the role lists is preserved by `write_user_config`:
`roles_this_run` is only deduplicated, and `roles_all_time` becomes the
union of both lists. -/
theorem write_user_config_mem_this_run (c : Settings) (x : String) :
    x ∈ (write_user_config c).roles_this_run ↔ x ∈ c.roles_this_run := by
  simp [write_user_config]

/-- After `ensure_common`, `"common"` is in `roles_this_run`. -/
theorem ensure_common_mem (c : Settings) :
    "common" ∈ (ensure_common c).roles_this_run := by
  unfold ensure_common
  split
  · assumption
  · simp

/-- `fix_empty_branch` only touches `git_branch`. -/
theorem fix_empty_branch_this_run (c : Settings) :
    (fix_empty_branch c).roles_this_run = c.roles_this_run := by
  unfold fix_empty_branch
  split <;> rfl

/-- C6: the claim asserts that writing then reading leaves both role lists
equal, as sets, to the written ones.  It does not: `write_user_config`
merges `roles_this_run` into `roles_all_time` (line 1026) and
`parse_user_config` merges `roles_all_time` back into `roles_this_run`
(line 722), so a role present only in `roles_all_time` — reachable, since
`on_course_toggled` can remove a role from `roles_this_run` — reappears in
`roles_this_run` after the round trip.  Concretely, with written lists
`roles_this_run = ["common"]` and `roles_all_time = ["common", "cs101"]`,
the read-back `roles_this_run` contains `"cs101"`. -/
theorem C6_counterexample :
    "cs101" ∈ (round_trip
      ⟨none, DEFAULT_GIT_REMOTE, ["common", "cs101"], ["common"],
       false, false⟩).roles_this_run ∧
    "cs101" ∉ (Settings.roles_this_run
      ⟨none, DEFAULT_GIT_REMOTE, ["common", "cs101"], ["common"],
       false, false⟩) := by
  decide

/-- C6 (amended): writing a `Settings` value and reading it back yields
`roles_this_run` and `roles_all_time` that are each equal, as sets, to the
union of the written `roles_this_run` and `roles_all_time`, with
duplicates removed; in particular `"common"` is a member exactly when it
was a member of either written list. -/
theorem C6_amended_roundtrip (c : Settings) :
    (∀ x : String, x ∈ (round_trip c).roles_this_run ↔
      (x ∈ c.roles_this_run ∨ x ∈ c.roles_all_time)) ∧
    (∀ x : String, x ∈ (round_trip c).roles_all_time ↔
      (x ∈ c.roles_this_run ∨ x ∈ c.roles_all_time)) ∧
    (round_trip c).roles_this_run.Nodup ∧
    (round_trip c).roles_all_time.Nodup ∧
    ("common" ∈ (round_trip c).roles_this_run ↔
      ("common" ∈ c.roles_this_run ∨ "common" ∈ c.roles_all_time)) := by
  refine ⟨fun x => ?_, fun x => ?_, ?_, ?_, ?_⟩ <;>
    simp [round_trip, parse_user_config, parse_merge, write_user_config,
          List.nodup_dedup] <;>
    tauto

/-- C7: every `USER_CONFIG` state reachable from `main`'s settings
initialisation through the GUI events keeps `"common"` in
`roles_this_run`: `main` re-adds it after loading (lines 108-109), course
toggles only touch tags from `COURSES` (none of which is `"common"`), and
`write_user_config` only deduplicates the list. -/
theorem C7_common_invariant (c : Settings) (h : Reachable c) :
    "common" ∈ c.roles_this_run := by
  induction h with
  | init bex distro file =>
      simp only [main_startup, fix_empty_branch_this_run]
      exact ensure_common_mem _
  | step c e hr he ih =>
      cases e with
      | toggle tag active =>
          have htag : tag ∈ course_tags := he
          have hne : "common" ≠ tag := by
            intro hEq
            subst hEq
            exact absurd htag (by decide)
          cases active
          · show "common" ∈ (c.roles_this_run.erase tag)
            exact (List.mem_erase_of_ne hne).mpr ih
          · show "common" ∈ (c.roles_this_run ++ [tag])
            exact List.mem_append_left _ ih
      | settingsOk branch url experimental ignoreMain =>
          simpa [apply_event, write_user_config_mem_this_run] using ih
      | ignoreAccepted =>
          simpa [apply_event, write_user_config_mem_this_run] using ih
      | runClicked =>
          simpa [apply_event, write_user_config_mem_this_run] using ih

/-- C7 witness: the startup state itself (no stored configuration, no
events) is reachable and satisfies the invariant. -/
theorem C7_witness :
    "common" ∈ (main_startup (fun _ _ => false) "vera" none).roles_this_run :=
  C7_common_invariant _ (Reachable.init (fun _ _ => false) "vera" none)

/-- C8: with `check=False`, `branch_exists` maps a non-zero `git ls-remote`
exit code to `False` instead of raising (lines 915-918); consequently,
when every remote listing fails, `validate_branch_settings` computes the
same (total) result as with an always-false existence oracle. -/
theorem C8_false_on_failure (runGit : List String → Int)
    (url name : String) (inp : VBInput) (h : ∀ args, runGit args ≠ 0) :
    branch_exists runGit url name = false ∧
    validate_branch_settings (branch_exists runGit) inp =
      validate_branch_settings (fun _ _ => false) inp := by
  have hb : ∀ u n, branch_exists runGit u n = false := by
    intro u n
    simpa [branch_exists] using h (ls_remote_cmd u n)
  exact ⟨hb url name, by simp [validate_branch_settings, hb]⟩

/-- C8 witness: a run oracle that always exits with code 1. -/
theorem C8_witness :
    (∀ args : List String, (fun _ => (1 : Int)) args ≠ 0) ∧
    (branch_exists (fun _ => (1 : Int)) DEFAULT_GIT_REMOTE "vera" = false ∧
     validate_branch_settings (branch_exists (fun _ => (1 : Int)))
        ⟨"vera", "main", DEFAULT_GIT_REMOTE, false⟩ =
      validate_branch_settings (fun _ _ => false)
        ⟨"vera", "main", DEFAULT_GIT_REMOTE, false⟩) :=
  ⟨fun _ => one_ne_zero,
   C8_false_on_failure (fun _ => (1 : Int)) DEFAULT_GIT_REMOTE "vera"
     ⟨"vera", "main", DEFAULT_GIT_REMOTE, false⟩ (fun _ => one_ne_zero)⟩

/-- C9: `validate_branch_settings` returns `True` exactly when it showed
no warning: the non-default-remote branch returns `True` with no dialog,
the unstable-branch case shows its dialog and returns `False`, and the
final return is `warning_prompt is None` (line 893), where every
decision-table rule sets a prompt. -/
theorem C9_proceed_iff_no_warning (bex : String → String → Bool)
    (inp : VBInput) :
    (validate_branch_settings bex inp).proceed = true ↔
      (validate_branch_settings bex inp).warning = none := by
  simp only [validate_branch_settings]
  split
  · simp
  · split
    · simp
    · simp [Option.isNone_iff_eq_none]

/-- C10: after the `parse_user_config` merge (lines 721-724) every role in
`roles_all_time` is also in `roles_this_run`, whether or not a stored
configuration file was loaded. -/
theorem C10_this_run_superset (c : Settings) (file : Option Settings)
    (x : String)
    (hx : x ∈ (parse_user_config c file).roles_all_time) :
    x ∈ (parse_user_config c file).roles_this_run := by
  rcases file with _ | f <;>
    simp [parse_user_config, parse_merge] at hx ⊢ <;> tauto

/-- C10 witness: the defaults with a stored file containing an extra
all-time role. -/
theorem C10_witness :
    "cs101" ∈ (parse_user_config initial_user_config
      (some ⟨none, DEFAULT_GIT_REMOTE, ["common", "cs101"], ["common"],
             false, false⟩)).roles_all_time ∧
    "cs101" ∈ (parse_user_config initial_user_config
      (some ⟨none, DEFAULT_GIT_REMOTE, ["common", "cs101"], ["common"],
             false, false⟩)).roles_this_run :=
  ⟨by decide,
   C10_this_run_superset initial_user_config
     (some ⟨none, DEFAULT_GIT_REMOTE, ["common", "cs101"], ["common"],
            false, false⟩) "cs101" (by decide)⟩

end UugWrapper
